import Mathlib

set_option maxHeartbeats 1000000

/-!
Shallow embedding of the vineyard sensor API server (src/server.js):
the Ecowitt payload normalizers, the bounded in-memory reading store,
the windowed statistics helper, and the alert evaluator, together with
theorems settling the specification claims.

JavaScript numbers are modelled as Option Rat with none standing for NaN;
all arithmetic the claims exercise is exact in Rat.  JavaScript field
values are strings (query string and form payloads) or numbers (JSON
payloads); absent object properties are modelled with Option.
-/

/-- A scalar JavaScript value in a payload field: a string or a number;
vnum none stands for NaN. -/
inductive JVal where
  | vstr (s : String)
  | vnum (q : Option ℚ)
  deriving DecidableEq, Repr

/-- JavaScript truthiness of a field value: the empty string, the number 0
and NaN are falsy; every other string or number is truthy. -/
def JVal.truthy : JVal → Bool
  | .vstr s => s ≠ ""
  | .vnum none => false
  | .vnum (some q) => q ≠ 0

/-- Truthiness of a possibly absent property (undefined is falsy). -/
def jTruthy : Option JVal → Bool
  | none => false
  | some v => v.truthy

/-- Digits of a decimal numeral read into a natural number. -/
def digitsToNat (ds : List Char) : ℕ :=
  ds.foldl (fun acc c => acc * 10 + (c.toNat - 48)) 0

/-- Model of JavaScript parseFloat restricted to plain decimal numerals:
optional leading spaces, optional sign, then the longest prefix made of
digits with at most one decimal point.  Exponents and Infinity are not
modelled; no claim exercises them.  none is NaN. -/
def parseFloatString (s : String) : Option ℚ :=
  let cs := s.data.dropWhile (fun c => c = ' ')
  let signed : ℚ × List Char :=
    match cs with
    | '-' :: rest => (-1, rest)
    | '+' :: rest => (1, rest)
    | _ => (1, cs)
  let ip := signed.2.takeWhile Char.isDigit
  let rest := signed.2.dropWhile Char.isDigit
  match rest with
  | '.' :: rest2 =>
      let fp := rest2.takeWhile Char.isDigit
      if ip.isEmpty && fp.isEmpty then none
      else some (signed.1 * ((digitsToNat ip : ℚ) + (digitsToNat fp : ℚ) / (10 ^ fp.length)))
  | _ => if ip.isEmpty then none else some (signed.1 * (digitsToNat ip : ℚ))

/-- Model of JavaScript parseInt in base 10: optional leading spaces and
sign, then a digit prefix; none (NaN) when no digit is found. -/
def parseIntString (s : String) : Option ℤ :=
  let cs := s.data.dropWhile (fun c => c = ' ')
  let signed : ℤ × List Char :=
    match cs with
    | '-' :: rest => (-1, rest)
    | '+' :: rest => (1, rest)
    | _ => (1, cs)
  let ip := signed.2.takeWhile Char.isDigit
  if ip.isEmpty then none else some (signed.1 * (digitsToNat ip : ℤ))

/-- parseFloat applied to a payload field value. -/
def JVal.parseFloat : JVal → Option ℚ
  | .vstr s => parseFloatString s
  | .vnum q => q

/-- parseFloat of a possibly absent property; parseFloat of undefined is NaN. -/
def jParseFloat : Option JVal → Option ℚ
  | none => none
  | some v => v.parseFloat

/-- A JavaScript number slot on a parsed reading: the property can be
undefined (never assigned), null, NaN, or a finite number. -/
inductive JNum where
  | undef
  | null
  | nan
  | num (q : ℚ)
  deriving DecidableEq, Repr

/-- Packaging a parseFloat result as a stored number (none becomes NaN). -/
def jnumOf : Option ℚ → JNum
  | none => .nan
  | some q => .num q

/-- Fahrenheit to Celsius conversion (v - 32) * 5 / 9; NaN propagates. -/
def fToC (v : Option ℚ) : Option ℚ := v.map (fun q => (q - 32) * 5 / 9)

/-- Model of x.toFixed(1) followed by parseFloat: rounding to one decimal
place, ties to the larger candidate as the toFixed specification
prescribes; NaN propagates since parseFloat of the string NaN is NaN. -/
def roundTo1 (v : Option ℚ) : Option ℚ :=
  v.map (fun q => (⌊q * 10 + 1 / 2⌋ : ℚ) / 10)

/-- The JavaScript or operator on a possibly absent field value: the value
itself when truthy, otherwise the supplied fallback. -/
def jOr (v : Option JVal) (dflt : JVal) : JVal :=
  match v with
  | some x => if x.truthy then x else dflt
  | none => dflt

/-- The canonical reading produced by the normalizers and held in the
store.  The raw field of the source (the untransformed payload, kept for
diagnostics only) is not carried: no derived computation and no claim
reads it.  Timestamps are epoch milliseconds; the ISO string round trip
of the source preserves their order. -/
structure Reading where
  timestamp : ℤ := 0
  temperature : JNum := .undef
  humidity : JNum := .undef
  soilMoisture1 : JNum := .undef
  soilMoisture2 : JNum := .undef
  leafWetness : JNum := .undef
  stationtype : JVal := .vstr "Unknown"
  passkey : JVal := .vstr "Unknown"
  dateutc : Option JVal := none
  deriving DecidableEq, Repr

/-- A flat (webhook and query string style) payload: exactly the
properties parseEcowittData reads, each possibly absent. -/
structure FlatPayload where
  tempf : Option JVal := none
  temp1f : Option JVal := none
  tempinf : Option JVal := none
  temp : Option JVal := none
  humidity : Option JVal := none
  humidity1 : Option JVal := none
  humidityin : Option JVal := none
  soilmoisture1 : Option JVal := none
  soilhum1 : Option JVal := none
  soilmoisture2 : Option JVal := none
  soilhum2 : Option JVal := none
  leafwetness_ch1 : Option JVal := none
  leafwetness1 : Option JVal := none
  leafwet_ch1 : Option JVal := none
  stationtype : Option JVal := none
  PASSKEY : Option JVal := none
  passkey : Option JVal := none
  ID : Option JVal := none
  dateutc : Option JVal := none
  deriving DecidableEq, Repr

/-- Translation of parseEcowittData (src/server.js lines 565 to 610), the
flat shape normalizer; now is the clock reading stamped on the record.
Field presence tests in the source are JavaScript truthiness tests, and
soil and leaf fields fall back to null while temperature and humidity are
left unassigned (undefined). -/
def parseEcowittData (now : ℤ) (data : FlatPayload) : Reading :=
  let temperature : JNum :=
    if jTruthy data.tempf then jnumOf (fToC (jParseFloat data.tempf))
    else if jTruthy data.temp1f then jnumOf (fToC (jParseFloat data.temp1f))
    else if jTruthy data.tempinf then jnumOf (fToC (jParseFloat data.tempinf))
    else if jTruthy data.temp then jnumOf (jParseFloat data.temp)
    else .undef
  let humidity : JNum :=
    if jTruthy data.humidity then jnumOf (jParseFloat data.humidity)
    else if jTruthy data.humidity1 then jnumOf (jParseFloat data.humidity1)
    else if jTruthy data.humidityin then jnumOf (jParseFloat data.humidityin)
    else .undef
  let soilMoisture1 : JNum :=
    if jTruthy data.soilmoisture1 then jnumOf (jParseFloat data.soilmoisture1)
    else if jTruthy data.soilhum1 then jnumOf (jParseFloat data.soilhum1)
    else .null
  let soilMoisture2 : JNum :=
    if jTruthy data.soilmoisture2 then jnumOf (jParseFloat data.soilmoisture2)
    else if jTruthy data.soilhum2 then jnumOf (jParseFloat data.soilhum2)
    else .null
  let leafWetness : JNum :=
    if jTruthy data.leafwetness_ch1 then jnumOf (jParseFloat data.leafwetness_ch1)
    else if jTruthy data.leafwetness1 then jnumOf (jParseFloat data.leafwetness1)
    else if jTruthy data.leafwet_ch1 then jnumOf (jParseFloat data.leafwet_ch1)
    else .null
  { timestamp := now
    temperature := temperature
    humidity := humidity
    soilMoisture1 := soilMoisture1
    soilMoisture2 := soilMoisture2
    leafWetness := leafWetness
    stationtype := jOr data.stationtype (.vstr "Unknown")
    passkey := jOr data.PASSKEY (jOr data.passkey (jOr data.ID (.vstr "Unknown")))
    dateutc := data.dateutc }

example : (parseEcowittData 0 { tempf := some (.vstr "68") }).temperature = .num 20 := by
  simp [parseEcowittData, jTruthy, JVal.truthy, jParseFloat, JVal.parseFloat, parseFloatString,
    digitsToNat, fToC, jnumOf]
  norm_num

example : (parseEcowittData 0 { temp := some (.vstr "20") }).temperature = .num 20 := by
  simp [parseEcowittData, jTruthy, JVal.truthy, jParseFloat, JVal.parseFloat, parseFloatString,
    digitsToNat, fToC, jnumOf]

example : (parseEcowittData 0 { tempf := some (.vstr "abc") }).temperature = .nan := by
  simp [parseEcowittData, jTruthy, JVal.truthy, jParseFloat, JVal.parseFloat, parseFloatString,
    digitsToNat, fToC, jnumOf]

example : (parseEcowittData 0 { soilmoisture1 := some (.vnum (some 0)) }).soilMoisture1 = .null := by
  simp [parseEcowittData, jTruthy, JVal.truthy, jParseFloat, JVal.parseFloat, parseFloatString,
    digitsToNat, fToC, jnumOf]

example : (parseEcowittData 0 { soilmoisture1 := some (.vstr "0") }).soilMoisture1 = .num 0 := by
  simp [parseEcowittData, jTruthy, JVal.truthy, jParseFloat, JVal.parseFloat, parseFloatString,
    digitsToNat, fToC, jnumOf]

/-- A nested value record with a value and a unit; the unit is never read. -/
structure ValueRec where
  value : Option JVal := none
  deriving DecidableEq, Repr

/-- An indoor or outdoor category of the cloud payload. -/
structure TempHumCat where
  temperature : Option ValueRec := none
  humidity : Option ValueRec := none
  deriving DecidableEq, Repr

/-- A soil channel of the cloud payload. -/
structure SoilCh where
  soilmoisture : Option ValueRec := none
  deriving DecidableEq, Repr

/-- A leaf channel of the cloud payload. -/
structure LeafCh where
  leaf_wetness : Option ValueRec := none
  deriving DecidableEq, Repr

/-- A nested (cloud poll style) payload: exactly the properties that
parseEcowittCloudData reads, each possibly absent. -/
structure CloudData where
  indoor : Option TempHumCat := none
  outdoor : Option TempHumCat := none
  soil_ch1 : Option SoilCh := none
  soil_ch2 : Option SoilCh := none
  leaf_ch1 : Option LeafCh := none
  deriving DecidableEq, Repr

/-- The guarded chain data.cat and data.cat.field and data.cat.field.value
of the source: some value exactly when every link is truthy (objects are
truthy when present, the value by JavaScript truthiness). -/
def chainVal (cat : Option α) (field : α → Option ValueRec) : Option JVal :=
  match cat with
  | none => none
  | some c =>
    match field c with
    | none => none
    | some vr => if jTruthy vr.value then vr.value else none

/-- Translation of parseEcowittCloudData (src/server.js lines 1116 to
1155), the nested shape normalizer.  Indoor values are assigned first and
outdoor values overwrite them whenever their whole chain is truthy, so
outdoor takes precedence.  Temperature, soil and leaf values go through
parseFloat(parseFloat(v).toFixed(1)), humidity through parseFloat alone;
no unit conversion happens on this path.  Unassigned fields stay
undefined: the soil and leaf fields of this parser are never null. -/
def parseEcowittCloudData (now : ℤ) (data : CloudData) : Reading :=
  let tIndoor : JNum :=
    match chainVal data.indoor TempHumCat.temperature with
    | some v => jnumOf (roundTo1 v.parseFloat)
    | none => .undef
  let temperature : JNum :=
    match chainVal data.outdoor TempHumCat.temperature with
    | some v => jnumOf (roundTo1 v.parseFloat)
    | none => tIndoor
  let hIndoor : JNum :=
    match chainVal data.indoor TempHumCat.humidity with
    | some v => jnumOf v.parseFloat
    | none => .undef
  let humidity : JNum :=
    match chainVal data.outdoor TempHumCat.humidity with
    | some v => jnumOf v.parseFloat
    | none => hIndoor
  let soilMoisture1 : JNum :=
    match chainVal data.soil_ch1 SoilCh.soilmoisture with
    | some v => jnumOf (roundTo1 v.parseFloat)
    | none => .undef
  let soilMoisture2 : JNum :=
    match chainVal data.soil_ch2 SoilCh.soilmoisture with
    | some v => jnumOf (roundTo1 v.parseFloat)
    | none => .undef
  let leafWetness : JNum :=
    match chainVal data.leaf_ch1 LeafCh.leaf_wetness with
    | some v => jnumOf (roundTo1 v.parseFloat)
    | none => .undef
  { timestamp := now
    temperature := temperature
    humidity := humidity
    soilMoisture1 := soilMoisture1
    soilMoisture2 := soilMoisture2
    leafWetness := leafWetness }

/-- The store capacity MAX_READINGS of the source. -/
def MAX_READINGS : ℕ := 10000

/-- One storage step: sensorData.push(parsed) followed by one
sensorData.shift() when the length exceeds MAX_READINGS. -/
def appendReading (store : List Reading) (r : Reading) : List Reading :=
  let s := store ++ [r]
  if MAX_READINGS < s.length then s.drop 1 else s

/-- A sequence of storage steps in arrival order. -/
def appendAll (store : List Reading) (rs : List Reading) : List Reading :=
  rs.foldl appendReading store

/-- The storage eligibility test used at every ingestion site: temperature
not undefined, or one of the soil and leaf fields not null. -/
def storable (p : Reading) : Bool :=
  p.temperature ≠ JNum.undef || p.soilMoisture1 ≠ JNum.null ||
    p.soilMoisture2 ≠ JNum.null || p.leafWetness ≠ JNum.null

/-- Translation of the webhook ingestion endpoint POST /api/ecowitt
(src/server.js lines 747 to 787): parse the flat body, store the reading
when it is eligible, and always answer success with status 200.  The
returned string is the response body. -/
def postEcowitt (store : List Reading) (now : ℤ) (body : FlatPayload) :
    List Reading × String :=
  let parsed := parseEcowittData now body
  if storable parsed then (appendReading store parsed, "success")
  else (store, "success")

/-- The storage step of fetchEcowittData (src/server.js lines 1078 to
1098) after a cloud envelope arrived with code 0: parse the nested
payload and store the reading when it is eligible. -/
def ingestCloud (store : List Reading) (now : ℤ) (data : CloudData) : List Reading :=
  let parsed := parseEcowittCloudData now data
  if storable parsed then appendReading store parsed else store

/-- Boolean order modelling values.sort((a, b) => a - b): the usual order
on numbers.  When NaN is present the language leaves the engine order
unspecified; the model places NaN first, and every statistics theorem
only exercises NaN free value lists. -/
def jleB : Option ℚ → Option ℚ → Bool
  | none, _ => true
  | some _, none => false
  | some x, some y => x ≤ y

/-- The record built by calculateStats. -/
structure StatsResult where
  min : Option ℚ
  max : Option ℚ
  avg : Option ℚ
  median : Option ℚ
  count : ℕ
  deriving DecidableEq, Repr

/-- JavaScript summation of the value list by reduce; NaN absorbs. -/
def jsSum (values : List (Option ℚ)) : Option ℚ :=
  values.foldl
    (fun acc v =>
      match acc, v with
      | some a, some b => some (a + b)
      | _, _ => none)
    (some 0)

/-- Translation of calculateStats (src/server.js lines 1162 to 1175):
null on an empty list, otherwise min, max, mean, the element at index
floor(length / 2) of the ascending sort, and the count. -/
def calculateStats (values : List (Option ℚ)) : Option StatsResult :=
  if values.length = 0 then none
  else
    let sorted := values.mergeSort jleB
    let sum := jsSum values
    some { min := sorted.getD 0 none
           max := sorted.getD (sorted.length - 1) none
           avg := sum.map (fun s => s / values.length)
           median := sorted.getD (sorted.length / 2) none
           count := values.length }

/-- Response of GET /api/data/latest (src/server.js lines 1197 to 1211). -/
inductive LatestResponse where
  | noData
  | reading (r : Reading)
  deriving DecidableEq, Repr

/-- Translation of GET /api/data/latest, returned together with the store
it leaves behind: the handler only reads sensorData. -/
def getLatest (store : List Reading) : LatestResponse × List Reading :=
  (match store.getLast? with
   | none => .noData
   | some r => .reading r,
   store)

/-- JavaScript slice with one integer argument (none is NaN and becomes
0): for a negative argument the start index is length plus it, clamped at
0; otherwise the argument clamped at the length.  The elements from the
start index on are returned, in order. -/
def jsSliceFrom (l : List Reading) (k : Option ℤ) : List Reading :=
  match k with
  | none => l
  | some k => if k < 0 then l.drop (l.length - (-k).toNat) else l.drop k.toNat

/-- The time filter of the history and stats endpoints: keep readings
whose timestamp is at least now minus the trailing window (hours, in
milliseconds). -/
def timeFilter (store : List Reading) (now : ℤ) (hours : ℚ) : List Reading :=
  store.filter (fun r => ((now : ℚ) - hours * 3600000) ≤ (r.timestamp : ℚ))

/-- Response of GET /api/data/history. -/
structure HistoryResponse where
  count : ℕ
  readings : List Reading
  deriving DecidableEq, Repr

/-- The filtering half of GET /api/data/history (src/server.js lines 1213
to 1231): the hours query parameter is a possibly absent numeric value (a
present nonempty numeric string is truthy so the time filter runs, an
absent one is falsy). -/
def historyFiltered (store : List Reading) (now : ℤ) (hours : Option ℚ) : List Reading :=
  match hours with
  | some h => timeFilter store now h
  | none => store

/-- Translation of GET /api/data/history, continued: the limit parameter
is the raw query string when given (query parameters arrive as strings)
and the numeric default 100 otherwise; the handler computes
parseInt(limit) and then returns filtered.slice(-limitNum). -/
def getHistory (store : List Reading) (now : ℤ) (hours : Option ℚ)
    (limit : Option String) : HistoryResponse × List Reading :=
  let filtered := historyFiltered store now hours
  let limitNum : Option ℤ :=
    match limit with
    | none => some 100
    | some s => parseIntString s
  let readings := jsSliceFrom filtered (limitNum.map (fun n => -n))
  ({ count := readings.length, readings := readings }, store)

/-- The per metric stats payload of GET /api/data/stats. -/
structure StatsPayload where
  temperature : Option StatsResult
  soilMoisture1 : Option StatsResult
  soilMoisture2 : Option StatsResult
  leafWetness : Option StatsResult
  count : ℕ
  timeRangeStart : ℤ
  timeRangeEnd : ℤ
  deriving DecidableEq, Repr

/-- Response of GET /api/data/stats. -/
inductive StatsResponse where
  | noData
  | stats (s : StatsPayload)
  deriving DecidableEq, Repr

/-- The temperature extraction of the stats endpoint: keep values other
than undefined.  Entries are Option ℚ with none for values that behave
like NaN in the later sort and sum; a null temperature never arises from
either normalizer. -/
def tempValues (rs : List Reading) : List (Option ℚ) :=
  (rs.map Reading.temperature).filterMap
    (fun v =>
      match v with
      | .undef => none
      | .null => some none
      | .nan => some none
      | .num q => some (some q))

/-- The soil and leaf extraction of the stats endpoint: keep values other
than null; an undefined value passes this filter (it is not null) and then
behaves like NaN in the sort and the sum, hence none. -/
def soilValues (rs : List Reading) (f : Reading → JNum) : List (Option ℚ) :=
  (rs.map f).filterMap
    (fun v =>
      match v with
      | .null => none
      | .undef => some none
      | .nan => some none
      | .num q => some (some q))

/-- Translation of GET /api/data/stats (src/server.js lines 1233 to
1260); the hours parameter defaults to 24. -/
def getStats (store : List Reading) (now : ℤ) (hours : ℚ) :
    StatsResponse × List Reading :=
  let filtered := timeFilter store now hours
  if filtered.length = 0 then (.noData, store)
  else
    (.stats { temperature := calculateStats (tempValues filtered)
              soilMoisture1 := calculateStats (soilValues filtered Reading.soilMoisture1)
              soilMoisture2 := calculateStats (soilValues filtered Reading.soilMoisture2)
              leafWetness := calculateStats (soilValues filtered Reading.leafWetness)
              count := filtered.length
              timeRangeStart := (filtered.head?.map Reading.timestamp).getD 0
              timeRangeEnd := (filtered.getLast?.map Reading.timestamp).getD 0 },
     store)

/-- An alert entry.  The human readable message of the source is built
from metric, direction and value by string formatting alone; no claim and
no later computation reads it, so it is not carried. -/
structure Alert where
  metric : String
  value : JNum
  severity : String
  deriving DecidableEq, Repr

instance : Inhabited Alert := ⟨⟨"", .undef, ""⟩⟩

/-- JavaScript relational comparison of a reading field with a constant:
null coerces to 0, undefined and NaN compare false. -/
def jlt (v : JNum) (c : ℚ) : Bool :=
  match v with
  | .num q => q < c
  | .null => 0 < c
  | _ => false

/-- JavaScript relational comparison, greater than side. -/
def jgt (v : JNum) (c : ℚ) : Bool :=
  match v with
  | .num q => c < q
  | .null => c < 0
  | _ => false

/-- The temperature check of GET /api/alerts (src/server.js lines 1281 to
1298): ideal band 18 to 25, critical band 10 to 35. -/
def checkTemp (latest : Reading) : List Alert :=
  if latest.temperature ≠ JNum.undef then
    if jlt latest.temperature 10 || jgt latest.temperature 35 then
      [{ metric := "temperature", value := latest.temperature, severity := "critical" }]
    else if jlt latest.temperature 18 || jgt latest.temperature 25 then
      [{ metric := "temperature", value := latest.temperature, severity := "warning" }]
    else []
  else []

/-- The soil moisture check (src/server.js lines 1300 to 1319): ideal 30
to 60, critical 20 to 80; run for channel 1 and then channel 2. -/
def checkSoil (name : String) (m : JNum) : List Alert :=
  if m ≠ JNum.null && m ≠ JNum.undef then
    if jlt m 20 || jgt m 80 then [{ metric := name, value := m, severity := "critical" }]
    else if jlt m 30 || jgt m 60 then [{ metric := name, value := m, severity := "warning" }]
    else []
  else []

/-- The leaf wetness check (src/server.js lines 1321 to 1337): warning
above 70, critical above 85; only high wetness triggers. -/
def checkLeaf (latest : Reading) : List Alert :=
  if latest.leafWetness ≠ JNum.null && latest.leafWetness ≠ JNum.undef then
    if jgt latest.leafWetness 85 then
      [{ metric := "leafWetness", value := latest.leafWetness, severity := "critical" }]
    else if jgt latest.leafWetness 70 then
      [{ metric := "leafWetness", value := latest.leafWetness, severity := "warning" }]
    else []
  else []

/-- The alert list built by GET /api/alerts before sorting: temperature,
then soil channel 1, then soil channel 2, then leaf wetness. -/
def evaluateAlerts (latest : Reading) : List Alert :=
  checkTemp latest ++ checkSoil "soilMoisture1" latest.soilMoisture1 ++
    checkSoil "soilMoisture2" latest.soilMoisture2 ++ checkLeaf latest

/-- The comparator passed to alerts.sort: -1 when a is critical, else 1
when b is critical, else 0.  On a pair of critical entries it answers -1
both ways, so it is not a consistent comparator and the language spec
leaves the sort order implementation defined. -/
def cmpAlert (a b : Alert) : ℤ :=
  if a.severity = "critical" then -1 else if b.severity = "critical" then 1 else 0

/-- Ascending run extension of the engine sort (see jsSortAlerts): keep
taking elements while the comparator does not put them strictly below
their predecessor. -/
def takeAscRun : Alert → List Alert → List Alert × List Alert
  | _, [] => ([], [])
  | prev, c :: rest =>
    if cmpAlert c prev < 0 then ([], c :: rest)
    else
      let t := takeAscRun c rest
      (c :: t.1, t.2)

/-- Descending run extension: keep taking while strictly below. -/
def takeDescRun : Alert → List Alert → List Alert × List Alert
  | _, [] => ([], [])
  | prev, c :: rest =>
    if cmpAlert c prev < 0 then
      let t := takeDescRun c rest
      (c :: t.1, t.2)
    else ([], c :: rest)

/-- Initial run detection of the engine sort: a strictly descending first
run is reversed, as TimSort prescribes. -/
def initialRun : List Alert → List Alert × List Alert
  | [] => ([], [])
  | [a] => ([a], [])
  | a :: b :: rest =>
    if cmpAlert b a < 0 then
      let t := takeDescRun b rest
      ((a :: b :: t.1).reverse, t.2)
    else
      let t := takeAscRun b rest
      (a :: b :: t.1, t.2)

/-- Binary search for the insertion position of the pivot inside the
sorted prefix, with the exact index arithmetic of the engine. -/
def bsPos (pr : List Alert) (pivot : Alert) (left right : ℕ) : ℕ :=
  if h : left < right then
    let mid := left + (right - left) / 2
    if cmpAlert pivot (pr.getD mid default) < 0 then bsPos pr pivot left mid
    else bsPos pr pivot (mid + 1) right
  else left
termination_by right - left
decreasing_by
  all_goals omega

/-- Insertion of the pivot at a position of the prefix. -/
def insertAt (pr : List Alert) (pos : ℕ) (pivot : Alert) : List Alert :=
  pr.take pos ++ pivot :: pr.drop pos

/-- Binary insertion pass over the elements after the initial run. -/
def binInsertAll (pr rest : List Alert) : List Alert :=
  rest.foldl (fun acc x => insertAt acc (bsPos acc x 0 acc.length) x) pr

/-- Model of alerts.sort(cmpAlert) under the engine that actually runs the
source (Node, hence V8): V8 sorts with TimSort, and an array shorter than
the minimal run length 32 is sorted by one initial run detection followed
by binary insertion of the remaining elements, which is the path every
alert list here takes (at most four entries).  The language leaves the
order unspecified because cmpAlert is inconsistent on pairs of critical
entries, so the engine algorithm is modelled exactly. -/
def jsSortAlerts (l : List Alert) : List Alert :=
  let t := initialRun l
  binInsertAll t.1 t.2

/-- Response of GET /api/alerts: the count, the sorted alert list, and
whether the no data message was answered. -/
structure AlertsResponse where
  alertCount : ℕ
  alerts : List Alert
  noData : Bool
  deriving DecidableEq, Repr

/-- Translation of GET /api/alerts (src/server.js lines 1262 to 1347),
with the store it leaves behind. -/
def getAlerts (store : List Reading) : AlertsResponse × List Reading :=
  match store.getLast? with
  | none => ({ alertCount := 0, alerts := [], noData := true }, store)
  | some latest =>
    let alerts := evaluateAlerts latest
    ({ alertCount := alerts.length, alerts := jsSortAlerts alerts, noData := false }, store)

example :
    jsSortAlerts [⟨"temperature", .num 5, "critical"⟩, ⟨"soilMoisture1", .num 5, "critical"⟩] =
      [⟨"soilMoisture1", .num 5, "critical"⟩, ⟨"temperature", .num 5, "critical"⟩] := by
  decide

example :
    jsSortAlerts [⟨"temperature", .num 27, "warning"⟩, ⟨"leafWetness", .num 90, "critical"⟩] =
      [⟨"leafWetness", .num 90, "critical"⟩, ⟨"temperature", .num 27, "warning"⟩] := by
  decide

theorem jleB_trans : ∀ a b c : Option ℚ, jleB a b = true → jleB b c = true → jleB a c = true := by
  intro a b c hab hbc
  match a, b, c with
  | none, _, _ => rfl
  | some x, some y, some z =>
    simp only [jleB, decide_eq_true_eq] at *
    exact le_trans hab hbc
  | some _, none, _ => simp [jleB] at hab
  | some _, some _, none => simp [jleB] at hbc

theorem jleB_total : ∀ a b : Option ℚ, (jleB a b || jleB b a) = true := by
  intro a b
  match a, b with
  | none, _ => simp [jleB]
  | some x, none => simp [jleB]
  | some x, some y =>
    simp only [jleB, Bool.or_eq_true, decide_eq_true_eq]
    exact le_total x y

/-- The ascending sort of calculateStats is the unique ordered permutation
of the value list. -/
theorem mergeSort_jleB_eq (l m : List (Option ℚ)) (hperm : m.Perm l)
    (hsort : List.Pairwise (fun a b => jleB a b = true) m) : l.mergeSort jleB = m := by
  haveI : IsAntisymm (Option ℚ) (fun a b => jleB a b = true) := by
    constructor
    intro a b hab hba
    match a, b with
    | none, none => rfl
    | none, some _ => simp [jleB] at hba
    | some _, none => simp [jleB] at hab
    | some x, some y =>
      simp only [jleB, decide_eq_true_eq] at hab hba
      exact congrArg some (le_antisymm hab hba)
  exact List.eq_of_perm_of_sorted ((List.mergeSort_perm l jleB).trans hperm.symm)
    (List.sorted_mergeSort jleB_trans jleB_total l) hsort

/-- C1 counterexample: on the even length value set [10, 20, 30, 40] the
stats median is 30, the element at index floor(4 / 2) = 2 of the
ascending sort (the upper median), and not the lower median 20 that the
claim states. -/
theorem calculateStats_lower_median_counterexample :
    (calculateStats [some 10, some 20, some 30, some 40]).map StatsResult.median =
      some (some 30) ∧
    (calculateStats [some 10, some 20, some 30, some 40]).map StatsResult.median ≠
      some (some 20) := by
  have hs : ([some 10, some 20, some 30, some 40] : List (Option ℚ)).mergeSort jleB =
      [some 10, some 20, some 30, some 40] :=
    mergeSort_jleB_eq _ _ (List.Perm.refl _) (by decide)
  constructor
  · simp [calculateStats, hs]
  · simp [calculateStats, hs]

/-- C1 amended and settled: for every nonempty NaN free value list, the
stats median is the element at index floor(n / 2) of the ascending sorted
sequence (characterized abstractly as any ordered permutation of the
values); for even n that element is the upper median, at least as large
as the other middle entry, so the claimed lower median is off by one
position. -/
theorem calculateStats_median_is_upper (l m : List ℚ) (hne : l ≠ [])
    (hperm : m.Perm l) (hsort : m.Sorted (fun a b => a ≤ b)) :
    (calculateStats (l.map some)).map StatsResult.median =
      some (some (m.getD (l.length / 2) 0)) ∧
    (l.length % 2 = 0 → m.getD (l.length / 2 - 1) 0 ≤ m.getD (l.length / 2) 0) := by
  have hml : m.length = l.length := hperm.length_eq
  have h0 : 0 < l.length := List.length_pos.mpr hne
  have hsorted : (l.map some).mergeSort jleB = m.map some := by
    apply mergeSort_jleB_eq
    · exact hperm.map some
    · rw [List.pairwise_map]
      exact hsort.imp (fun h => by simpa [jleB] using h)
  have hlt : l.length / 2 < m.length := by
    rw [hml]
    exact Nat.div_lt_self h0 (by norm_num)
  constructor
  · have hgd : (m.map some).getD (l.length / 2) none = some (m.getD (l.length / 2) 0) := by
      rw [List.getD_eq_getElem?_getD, List.getD_eq_getElem?_getD, List.getElem?_map,
        List.getElem?_eq_getElem hlt]
      simp
    simp only [calculateStats, List.length_map]
    rw [if_neg (by omega)]
    simp only [Option.map_some', hsorted, List.length_map, hml]
    rw [hgd]
  · intro heven
    have h2 : 2 ≤ l.length := by omega
    have hi : l.length / 2 - 1 < m.length := by omega
    have hij : l.length / 2 - 1 < l.length / 2 := by omega
    have := hsort.rel_get_of_lt (a := ⟨l.length / 2 - 1, hi⟩) (b := ⟨l.length / 2, hlt⟩) hij
    rw [List.getD_eq_getElem?_getD, List.getD_eq_getElem?_getD, List.getElem?_eq_getElem hi,
      List.getElem?_eq_getElem hlt]
    simpa using this

/-- Witness for the amended C1 theorem at the concrete even length value
set [10, 20, 30, 40]: every hypothesis holds and the median is 30. -/
theorem calculateStats_median_is_upper_witness :
    (([10, 20, 30, 40] : List ℚ) ≠ [] ∧
      List.Perm ([10, 20, 30, 40] : List ℚ) [10, 20, 30, 40] ∧
      List.Sorted (fun a b : ℚ => a ≤ b) [10, 20, 30, 40]) ∧
    (calculateStats (([10, 20, 30, 40] : List ℚ).map some)).map StatsResult.median =
      some (some 30) := by
  refine ⟨⟨by decide, List.Perm.refl _, by decide⟩, ?_⟩
  have h := (calculateStats_median_is_upper [10, 20, 30, 40] [10, 20, 30, 40]
    (by decide) (List.Perm.refl _) (by decide)).1
  simpa using h

/-- C2 counterexample: a flat payload whose soilmoisture1 field carries
the JavaScript number 0, as a JSON body can deliver, is misread as absent
by the truthiness presence check: the parsed soil moisture is null, not a
present 0; a numeric 0 tempf is likewise skipped and the temperature is
left undefined rather than converted. -/
theorem numeric_zero_misread_counterexample :
    (parseEcowittData 0 { soilmoisture1 := some (.vnum (some 0)) }).soilMoisture1 = JNum.null ∧
    JNum.null ≠ JNum.num 0 ∧
    (parseEcowittData 0 { tempf := some (.vnum (some 0)) }).temperature = JNum.undef ∧
    JNum.undef ≠ JNum.num ((0 - 32) * 5 / 9) := by
  refine ⟨?_, by simp, ?_, by simp⟩ <;>
    simp [parseEcowittData, jTruthy, JVal.truthy]

/-- C2 amended and settled: a monitored metric field carrying the string
0, the form in which webhook form and query string payloads arrive, is
treated as present with value 0 (converted for tempf); but a field
carrying the JavaScript number 0, possible with a JSON body, is falsy and
is misread as absent by the truthiness presence checks: soil and leaf
fall back to null and the temperature stays undefined.  The value chain
of the nested cloud parser behaves the same way. -/
theorem zero_string_present_numeric_zero_absent :
    (parseEcowittData 0 { soilmoisture1 := some (.vstr "0") }).soilMoisture1 = JNum.num 0 ∧
    (parseEcowittData 0 { leafwetness_ch1 := some (.vstr "0") }).leafWetness = JNum.num 0 ∧
    (parseEcowittData 0 { tempf := some (.vstr "0") }).temperature = JNum.num (-160 / 9) ∧
    (parseEcowittData 0 { soilmoisture1 := some (.vnum (some 0)) }).soilMoisture1 = JNum.null ∧
    (parseEcowittData 0 { leafwetness_ch1 := some (.vnum (some 0)) }).leafWetness = JNum.null ∧
    (parseEcowittData 0 { tempf := some (.vnum (some 0)) }).temperature = JNum.undef ∧
    (parseEcowittCloudData 0
        { soil_ch1 := some { soilmoisture := some { value := some (.vstr "0") } } }).soilMoisture1 =
      JNum.num 0 ∧
    (parseEcowittCloudData 0
        { soil_ch1 := some { soilmoisture := some { value := some (.vnum (some 0)) } } }).soilMoisture1 =
      JNum.undef := by
  refine ⟨?_, ?_, ?_, ?_, ?_, ?_, ?_, ?_⟩ <;>
    simp [parseEcowittData, parseEcowittCloudData, chainVal, jTruthy, JVal.truthy, jParseFloat,
      JVal.parseFloat, parseFloatString, digitsToNat, jnumOf, fToC, roundTo1] <;>
    norm_num

/-- C3 failing input, evaluated: the flat payload whose only metric field
is the malformed numeric string abc.  parseFloat gives NaN, NaN is not
undefined, so POST /api/ecowitt stores a reading whose temperature is NaN
and the store grows from 0 to 1 entries, while the endpoint still answers
success.  A payload with every metric field absent is, by contrast, not
stored, and the endpoint answers success as well. -/
theorem postEcowitt_nan_stored_bug :
    (parseEcowittData 0 { tempf := some (.vstr "abc") }).temperature = JNum.nan ∧
    ((postEcowitt [] 0 { tempf := some (.vstr "abc") }).1).length = 1 ∧
    (postEcowitt [] 0 { tempf := some (.vstr "abc") }).2 = "success" ∧
    (postEcowitt [] 0 ({} : FlatPayload)).1 = [] ∧
    (postEcowitt [] 0 ({} : FlatPayload)).2 = "success" := by
  refine ⟨?_, ?_, ?_, ?_, ?_⟩ <;>
    simp [postEcowitt, storable, appendReading, MAX_READINGS, parseEcowittData, jTruthy,
      JVal.truthy, jParseFloat, JVal.parseFloat, parseFloatString, digitsToNat, fToC, jnumOf]

/-- C6: flat shape temperature priority.  Whenever tempf is truthy the
canonical temperature is its Fahrenheit to Celsius conversion, regardless
of the other fields; otherwise temp1f, then tempinf, each converted; and
finally temp, taken without conversion.  In particular tempf 68 gives the
converted 20 and temp 20 gives the unconverted 20. -/
theorem flat_temperature_priority (now : ℤ) (data : FlatPayload) :
    (jTruthy data.tempf = true →
      (parseEcowittData now data).temperature = jnumOf (fToC (jParseFloat data.tempf))) ∧
    (jTruthy data.tempf = false → jTruthy data.temp1f = true →
      (parseEcowittData now data).temperature = jnumOf (fToC (jParseFloat data.temp1f))) ∧
    (jTruthy data.tempf = false → jTruthy data.temp1f = false → jTruthy data.tempinf = true →
      (parseEcowittData now data).temperature = jnumOf (fToC (jParseFloat data.tempinf))) ∧
    (jTruthy data.tempf = false → jTruthy data.temp1f = false → jTruthy data.tempinf = false →
      jTruthy data.temp = true →
      (parseEcowittData now data).temperature = jnumOf (jParseFloat data.temp)) ∧
    (parseEcowittData now { tempf := some (.vstr "68") }).temperature = JNum.num 20 ∧
    (parseEcowittData now { temp := some (.vstr "20") }).temperature = JNum.num 20 ∧
    (parseEcowittData now { tempf := some (.vstr "68"), temp := some (.vstr "50") }).temperature =
      JNum.num 20 := by
  refine ⟨?_, ?_, ?_, ?_, ?_, ?_, ?_⟩
  · intro h1
    simp [parseEcowittData, h1]
  · intro h1 h2
    simp [parseEcowittData, h1, h2]
  · intro h1 h2 h3
    simp [parseEcowittData, h1, h2, h3]
  · intro h1 h2 h3 h4
    simp [parseEcowittData, h1, h2, h3, h4]
  all_goals
    simp [parseEcowittData, jTruthy, JVal.truthy, jParseFloat, JVal.parseFloat, parseFloatString,
      digitsToNat, fToC, jnumOf]
  all_goals norm_num

/-- Witness for C6 at a concrete payload carrying both tempf and temp:
the tempf branch hypothesis holds and wins. -/
theorem flat_temperature_priority_witness :
    jTruthy (some (JVal.vstr "68")) = true ∧
    (parseEcowittData 0 { tempf := some (.vstr "68"), temp := some (.vstr "50") }).temperature =
      jnumOf (fToC (jParseFloat (some (.vstr "68")))) := by
  refine ⟨by decide, ?_⟩
  exact (flat_temperature_priority 0
    { tempf := some (.vstr "68"), temp := some (.vstr "50") }).1 (by decide)

/-- C7: nested shape temperature resolution.  Whenever the outdoor chain
is assigned, the canonical temperature is parseFloat of its value rounded
to one decimal, with no unit conversion; otherwise the indoor chain is
used the same way; otherwise the temperature stays undefined.  In
particular an outdoor value 72.3 gives 72.3 and a value 72.34 gives the
rounded 72.3. -/
theorem cloud_temperature_resolution (now : ℤ) (data : CloudData) :
    (∀ v : JVal, chainVal data.outdoor TempHumCat.temperature = some v →
      (parseEcowittCloudData now data).temperature = jnumOf (roundTo1 v.parseFloat)) ∧
    (chainVal data.outdoor TempHumCat.temperature = none →
      ∀ v : JVal, chainVal data.indoor TempHumCat.temperature = some v →
      (parseEcowittCloudData now data).temperature = jnumOf (roundTo1 v.parseFloat)) ∧
    (chainVal data.outdoor TempHumCat.temperature = none →
      chainVal data.indoor TempHumCat.temperature = none →
      (parseEcowittCloudData now data).temperature = JNum.undef) ∧
    (parseEcowittCloudData now
        { outdoor := some { temperature := some { value := some (.vstr "72.3") } } }).temperature =
      JNum.num (723 / 10) ∧
    (parseEcowittCloudData now
        { outdoor := some { temperature := some { value := some (.vstr "72.34") } } }).temperature =
      JNum.num (723 / 10) := by
  refine ⟨?_, ?_, ?_, ?_, ?_⟩
  · intro v h
    simp [parseEcowittCloudData, h]
  · intro h1 v h2
    simp [parseEcowittCloudData, h1, h2]
  · intro h1 h2
    simp [parseEcowittCloudData, h1, h2]
  all_goals
    simp [parseEcowittCloudData, chainVal, jTruthy, JVal.truthy, JVal.parseFloat,
      parseFloatString, digitsToNat, roundTo1, jnumOf]
  all_goals norm_num

/-- Witness for C7 at a concrete payload carrying both outdoor and indoor
temperature values: the outdoor chain hypothesis holds and wins. -/
theorem cloud_temperature_resolution_witness :
    chainVal (some { temperature := some { value := some (JVal.vstr "72.3") } } : Option TempHumCat)
        TempHumCat.temperature = some (JVal.vstr "72.3") ∧
    (parseEcowittCloudData 0
        { outdoor := some { temperature := some { value := some (.vstr "72.3") } },
          indoor := some { temperature := some { value := some (.vstr "50") } } }).temperature =
      jnumOf (roundTo1 (JVal.vstr "72.3").parseFloat) := by
  refine ⟨by decide, ?_⟩
  exact (cloud_temperature_resolution 0
    { outdoor := some { temperature := some { value := some (.vstr "72.3") } },
      indoor := some { temperature := some { value := some (.vstr "50") } } }).1
    (JVal.vstr "72.3") (by decide)

/-- The closed form of a sequence of appends: starting within capacity,
the store is the concatenation with everything before the last
MAX_READINGS entries dropped (truncated subtraction makes this the
identity while the total stays within capacity). -/
theorem appendAll_eq_drop (rs : List Reading) :
    ∀ s : List Reading, s.length ≤ MAX_READINGS →
      appendAll s rs = (s ++ rs).drop (s.length + rs.length - MAX_READINGS) := by
  induction rs with
  | nil =>
    intro s hs
    simp [appendAll, Nat.sub_eq_zero_of_le hs]
  | cons r rs ih =>
    intro s hs
    rw [show appendAll s (r :: rs) = appendAll (appendReading s r) rs from rfl]
    have dropIdx : ∀ (L : List Reading) (i j : ℕ), i = j → L.drop i = L.drop j := by
      intro L i j hij
      rw [hij]
    by_cases h : MAX_READINGS < s.length + 1
    · have hs1 : s.length = MAX_READINGS := by omega
      have hrw : appendReading s r = (s ++ [r]).drop 1 := by
        simp [appendReading, List.length_append, h]
      rw [hrw, ih _ (by simp [hs1])]
      have e1 : (s ++ [r]).drop 1 ++ rs = ((s ++ [r]) ++ rs).drop 1 :=
        (List.drop_append_of_le_length (by simp)).symm
      rw [e1, List.drop_drop]
      rw [show (s ++ [r]) ++ rs = s ++ r :: rs by simp]
      apply dropIdx
      simp only [List.length_drop, List.length_append, List.length_cons, List.length_nil]
      omega
    · have hrw : appendReading s r = s ++ [r] := by
        simp [appendReading, List.length_append, h]
      rw [hrw, ih _ (by simp; omega)]
      rw [List.append_assoc]
      simp only [List.singleton_append]
      apply dropIdx
      simp only [List.length_append, List.length_cons, List.length_nil]
      omega

/-- C5: for every sequence of more than MAX_READINGS appends starting
from the empty store, the final size is exactly MAX_READINGS and the
retained readings are exactly the most recent MAX_READINGS insertions in
their original order; after any prefix of the appends the store is still
within capacity, and an append to a full store drops exactly the oldest
entry and keeps the newcomer last. -/
theorem store_fifo_bounded (rs : List Reading) (h : MAX_READINGS < rs.length) :
    (appendAll [] rs).length = MAX_READINGS ∧
    appendAll [] rs = rs.drop (rs.length - MAX_READINGS) ∧
    (∀ p q : List Reading, rs = p ++ q → (appendAll [] p).length ≤ MAX_READINGS) ∧
    (∀ s : List Reading, s.length = MAX_READINGS → ∀ r : Reading,
      appendReading s r = s.drop 1 ++ [r]) := by
  have key : ∀ p : List Reading, appendAll [] p = p.drop (p.length - MAX_READINGS) := by
    intro p
    simpa using appendAll_eq_drop p [] (by simp)
  refine ⟨?_, key rs, ?_, ?_⟩
  · rw [key rs]
    simp only [List.length_drop]
    omega
  · intro p q hpq
    rw [key p]
    simp only [List.length_drop]
    omega
  · intro s hs r
    have hrw : appendReading s r = (s ++ [r]).drop 1 := by
      simp [appendReading, List.length_append, hs]
    rw [hrw, List.drop_append_of_le_length (by rw [hs]; norm_num [MAX_READINGS])]

/-- Witness for C5: a concrete run of 10001 appends of the default
reading ends with exactly 10000 retained readings. -/
theorem store_fifo_bounded_witness :
    MAX_READINGS < (List.replicate (MAX_READINGS + 1) ({} : Reading)).length ∧
    (appendAll [] (List.replicate (MAX_READINGS + 1) ({} : Reading))).length = MAX_READINGS := by
  have h1 : MAX_READINGS < (List.replicate (MAX_READINGS + 1) ({} : Reading)).length := by
    simp
  exact ⟨h1, (store_fifo_bounded _ h1).1⟩

/-- C8: the two tier band policy of the alert evaluator on a present
numeric metric value: severity critical when the value is outside the
critical band, warning when outside the ideal band but within the
critical one, and no alert otherwise, for each monitored metric; and the
two concrete latest readings of the claim, temperature 5 giving exactly
one critical temperature alert and temperature 27 giving one warning. -/
theorem alert_band_policy (t : ℚ) (r : Reading) :
    (r.temperature = JNum.num t →
      (((t < 10 ∨ 35 < t) →
          checkTemp r = [{ metric := "temperature", value := JNum.num t, severity := "critical" }]) ∧
       (10 ≤ t → t ≤ 35 → (t < 18 ∨ 25 < t) →
          checkTemp r = [{ metric := "temperature", value := JNum.num t, severity := "warning" }]) ∧
       (18 ≤ t → t ≤ 25 → checkTemp r = []))) ∧
    (∀ s : String,
      (((t < 20 ∨ 80 < t) →
          checkSoil s (JNum.num t) = [{ metric := s, value := JNum.num t, severity := "critical" }]) ∧
       (20 ≤ t → t ≤ 80 → (t < 30 ∨ 60 < t) →
          checkSoil s (JNum.num t) = [{ metric := s, value := JNum.num t, severity := "warning" }]) ∧
       (30 ≤ t → t ≤ 60 → checkSoil s (JNum.num t) = []))) ∧
    (r.leafWetness = JNum.num t →
      ((85 < t →
          checkLeaf r = [{ metric := "leafWetness", value := JNum.num t, severity := "critical" }]) ∧
       (70 < t → t ≤ 85 →
          checkLeaf r = [{ metric := "leafWetness", value := JNum.num t, severity := "warning" }]) ∧
       (t ≤ 70 → checkLeaf r = []))) ∧
    evaluateAlerts { temperature := JNum.num 5, soilMoisture1 := JNum.null,
                     soilMoisture2 := JNum.null, leafWetness := JNum.null } =
      [{ metric := "temperature", value := JNum.num 5, severity := "critical" }] ∧
    evaluateAlerts { temperature := JNum.num 27, soilMoisture1 := JNum.null,
                     soilMoisture2 := JNum.null, leafWetness := JNum.null } =
      [{ metric := "temperature", value := JNum.num 27, severity := "warning" }] := by
  refine ⟨?_, ?_, ?_, by decide, by decide⟩
  · intro h
    refine ⟨?_, ?_, ?_⟩
    · intro hc
      rcases hc with hc | hc <;> simp [checkTemp, h, jlt, jgt, hc]
    · intro h10 h35 hw
      rcases hw with hw | hw <;>
        simp [checkTemp, h, jlt, jgt, not_lt.2 h10, not_lt.2 h35, hw]
    · intro h18 h25
      simp [checkTemp, h, jlt, jgt, not_lt.2 h18, not_lt.2 h25,
        not_lt.2 (le_trans (by norm_num : (10 : ℚ) ≤ 18) h18),
        not_lt.2 (h25.trans (by norm_num : (25 : ℚ) ≤ 35))]
  · intro s
    refine ⟨?_, ?_, ?_⟩
    · intro hc
      rcases hc with hc | hc <;> simp [checkSoil, jlt, jgt, hc]
    · intro h20 h80 hw
      rcases hw with hw | hw <;>
        simp [checkSoil, jlt, jgt, not_lt.2 h20, not_lt.2 h80, hw]
    · intro h30 h60
      simp [checkSoil, jlt, jgt, not_lt.2 h30, not_lt.2 h60,
        not_lt.2 (le_trans (by norm_num : (20 : ℚ) ≤ 30) h30),
        not_lt.2 (h60.trans (by norm_num : (60 : ℚ) ≤ 80))]
  · intro h
    refine ⟨?_, ?_, ?_⟩
    · intro hc
      simp [checkLeaf, h, jgt, hc]
    · intro h70 h85
      simp [checkLeaf, h, jgt, h70, not_lt.2 h85]
    · intro h70
      simp [checkLeaf, h, jgt, not_lt.2 h70,
        not_lt.2 (h70.trans (by norm_num : (70 : ℚ) ≤ 85))]

/-- Witness for C8 at temperature 5: the hypotheses of the critical
branch hold and the evaluator emits the critical temperature alert. -/
theorem alert_band_policy_witness :
    ((5 : ℚ) < 10 ∨ 35 < (5 : ℚ)) ∧
    checkTemp { temperature := JNum.num 5 } =
      [{ metric := "temperature", value := JNum.num 5, severity := "critical" }] := by
  refine ⟨Or.inl (by norm_num), ?_⟩
  exact ((alert_band_policy 5 { temperature := JNum.num 5 }).1 rfl).1 (Or.inl (by norm_num))

/-- A critical pivot wins every comparison, so its binary search always
moves the right boundary and lands on the left end. -/
theorem bsPos_crit (pr : List Alert) (pivot : Alert) (h : pivot.severity = "critical") :
    ∀ left right : ℕ, bsPos pr pivot left right = left := by
  have key : ∀ n left right : ℕ, right - left ≤ n → bsPos pr pivot left right = left := by
    intro n
    induction n with
    | zero =>
      intro left right hlr
      rw [bsPos]
      rw [dif_neg (by omega)]
    | succ n ih =>
      intro left right hlr
      rw [bsPos]
      by_cases hlt : left < right
      · rw [dif_pos hlt]
        have hc : cmpAlert pivot (pr.getD (left + (right - left) / 2) default) < 0 := by
          simp [cmpAlert, h]
        simp only [if_pos hc]
        exact ih left (left + (right - left) / 2) (by omega)
      · rw [dif_neg hlt]
  exact fun left right => key (right - left) left right le_rfl

/-- A pivot that is not critical never wins a comparison, so its binary
search always moves the left boundary and lands on the right end. -/
theorem bsPos_noncrit (pr : List Alert) (pivot : Alert) (h : ¬ pivot.severity = "critical") :
    ∀ left right : ℕ, left ≤ right → bsPos pr pivot left right = right := by
  have key : ∀ n left right : ℕ, right - left ≤ n → left ≤ right →
      bsPos pr pivot left right = right := by
    intro n
    induction n with
    | zero =>
      intro left right hlr hle
      rw [bsPos]
      rw [dif_neg (by omega)]
      omega
    | succ n ih =>
      intro left right hlr hle
      rw [bsPos]
      by_cases hlt : left < right
      · rw [dif_pos hlt]
        have hc : ¬ cmpAlert pivot (pr.getD (left + (right - left) / 2) default) < 0 := by
          unfold cmpAlert
          rw [if_neg h]
          split_ifs <;> omega
        simp only [if_neg hc]
        exact ih (left + (right - left) / 2 + 1) right (by omega) (by omega)
      · rw [dif_neg hlt]
        omega
  exact fun left right hle => key (right - left) left right le_rfl hle

/-- On lists of at most four entries, the path every alert list takes,
the engine sort puts the critical entries first in reverse order of
arrival and the remaining entries after them in arrival order: the
comparator only ever inspects whether an entry is critical, a critical
pivot binary searches its way to the front, and a leading run of critical
entries is detected as descending and reversed. -/
theorem jsSortAlerts_small (l : List Alert) (hlen : l.length ≤ 4) :
    jsSortAlerts l =
      (l.filter fun a => a.severity = "critical").reverse ++
        (l.filter fun a => a.severity ≠ "critical") := by
  rcases l with _ | ⟨a, _ | ⟨b, _ | ⟨c, _ | ⟨d, rest⟩⟩⟩⟩
  · rfl
  · by_cases ha : a.severity = "critical" <;>
      simp [jsSortAlerts, initialRun, binInsertAll, takeAscRun, takeDescRun, bsPos_crit,
        bsPos_noncrit, insertAt, cmpAlert, ha]
  · by_cases ha : a.severity = "critical" <;> by_cases hb : b.severity = "critical" <;>
      simp [jsSortAlerts, initialRun, binInsertAll, takeAscRun, takeDescRun, bsPos_crit,
        bsPos_noncrit, insertAt, cmpAlert, ha, hb]
  · by_cases ha : a.severity = "critical" <;> by_cases hb : b.severity = "critical" <;>
      by_cases hc : c.severity = "critical" <;>
      simp [jsSortAlerts, initialRun, binInsertAll, takeAscRun, takeDescRun, bsPos_crit,
        bsPos_noncrit, insertAt, cmpAlert, ha, hb, hc]
  · match rest with
    | [] =>
      by_cases ha : a.severity = "critical" <;> by_cases hb : b.severity = "critical" <;>
        by_cases hc : c.severity = "critical" <;> by_cases hd : d.severity = "critical" <;>
        simp [jsSortAlerts, initialRun, binInsertAll, takeAscRun, takeDescRun, bsPos_crit,
          bsPos_noncrit, insertAt, cmpAlert, ha, hb, hc, hd]
    | e :: rest2 => simp at hlen

/-- Each metric check emits at most one alert, so the evaluator emits at
most four. -/
theorem evaluateAlerts_length_le (r : Reading) : (evaluateAlerts r).length ≤ 4 := by
  have h1 : (checkTemp r).length ≤ 1 := by
    unfold checkTemp
    split_ifs <;> simp
  have h2 : ∀ s m, (checkSoil s m).length ≤ 1 := by
    intro s m
    unfold checkSoil
    split_ifs <;> simp
  have h3 : (checkLeaf r).length ≤ 1 := by
    unfold checkLeaf
    split_ifs <;> simp
  have h21 := h2 "soilMoisture1" r.soilMoisture1
  have h22 := h2 "soilMoisture2" r.soilMoisture2
  simp only [evaluateAlerts, List.length_append]
  omega

/-- C4 counterexample: a latest reading with temperature 5 and soil
moisture 5 yields two critical alerts inserted as temperature then soil
channel 1, but the endpoint returns them in the opposite order: within
the critical severity tier the insertion order is not preserved. -/
theorem alerts_sort_unstable_counterexample :
    evaluateAlerts { temperature := JNum.num 5, soilMoisture1 := JNum.num 5,
                     soilMoisture2 := JNum.null, leafWetness := JNum.null } =
      [{ metric := "temperature", value := JNum.num 5, severity := "critical" },
       { metric := "soilMoisture1", value := JNum.num 5, severity := "critical" }] ∧
    jsSortAlerts (evaluateAlerts { temperature := JNum.num 5, soilMoisture1 := JNum.num 5,
                                   soilMoisture2 := JNum.null, leafWetness := JNum.null }) =
      [{ metric := "soilMoisture1", value := JNum.num 5, severity := "critical" },
       { metric := "temperature", value := JNum.num 5, severity := "critical" }] ∧
    jsSortAlerts (evaluateAlerts { temperature := JNum.num 5, soilMoisture1 := JNum.num 5,
                                   soilMoisture2 := JNum.null, leafWetness := JNum.null }) ≠
      evaluateAlerts { temperature := JNum.num 5, soilMoisture1 := JNum.num 5,
                       soilMoisture2 := JNum.null, leafWetness := JNum.null } := by
  refine ⟨by decide, by decide, by decide⟩

/-- C4 amended and settled: for every latest reading, the returned alert
list has every critical entry before every warning entry; the warning
entries keep their insertion order (temperature, soil 1, soil 2, leaf
wetness), but the critical entries appear in reverse insertion order, the
consequence of the inconsistent comparator under the engine sort. -/
theorem alerts_sorted_critical_first_reverse (r : Reading) :
    jsSortAlerts (evaluateAlerts r) =
      ((evaluateAlerts r).filter fun a => a.severity = "critical").reverse ++
        ((evaluateAlerts r).filter fun a => a.severity ≠ "critical") :=
  jsSortAlerts_small _ (evaluateAlerts_length_le r)

/-- C9: the read endpoints are pure functions of the store snapshot and
the clock: each returns the store unchanged, and calling it again on the
store it left behind, with the same clock, gives the identical response.
In the source the handlers only read sensorData and build fresh arrays
(spread, map, filter) before the in place sorts inside calculateStats and
the alerts handler touch anything, so the store is never mutated; the
model accordingly has every handler return the store it leaves behind. -/
theorem read_endpoints_idempotent (store : List Reading) (now : ℤ) (hours : ℚ) :
    (getLatest store).2 = store ∧
    (getStats store now hours).2 = store ∧
    (getAlerts store).2 = store ∧
    getLatest (getLatest store).2 = getLatest store ∧
    getStats (getStats store now hours).2 now hours = getStats store now hours ∧
    getAlerts (getAlerts store).2 = getAlerts store := by
  have h1 : (getLatest store).2 = store := rfl
  have h2 : (getStats store now hours).2 = store := by
    by_cases hc : (timeFilter store now hours).length = 0 <;> simp [getStats, hc]
  have h3 : (getAlerts store).2 = store := by
    cases hL : store.getLast? <;> simp [getAlerts, hL]
  exact ⟨h1, h2, h3, by rw [h1], by rw [h2], by rw [h3]⟩

/-- C10 amended and settled: with a limit that parses to 0 and with a non
numeric limit string, the history endpoint returns the entire time
filtered history in chronological order (the filtered list itself) rather
than zero readings; with a limit parsing to a positive integer the
returned count never exceeds it; but a limit parsing to a negative
integer is a further degenerate case: the endpoint then drops that many
readings from the front and returns all the rest, so the count can exceed
the requested limit there too. -/
theorem history_degenerate_limit (store : List Reading) (now : ℤ) (hours : Option ℚ)
    (s : String) :
    (getHistory store now hours (some "0")).1.readings = historyFiltered store now hours ∧
    (parseIntString s = none →
      (getHistory store now hours (some s)).1.readings = historyFiltered store now hours) ∧
    (∀ k : ℤ, parseIntString s = some k → 0 < k →
      ((getHistory store now hours (some s)).1.readings.length : ℤ) ≤ k) ∧
    (∀ k : ℤ, parseIntString s = some k → k < 0 →
      (getHistory store now hours (some s)).1.readings =
        (historyFiltered store now hours).drop (-k).toNat) := by
  refine ⟨?_, ?_, ?_, ?_⟩
  · simp [getHistory, parseIntString, digitsToNat, jsSliceFrom]
  · intro h
    simp [getHistory, h, jsSliceFrom]
  · intro k hk h0
    have hneg : -k < 0 := by omega
    simp only [getHistory, hk, Option.map_some', jsSliceFrom, if_pos hneg, neg_neg]
    simp only [List.length_drop]
    omega
  · intro k hk hneg
    have hpos : ¬ -k < 0 := by omega
    simp only [getHistory, hk, Option.map_some', jsSliceFrom, if_neg hpos]

/-- Witness for the amended C10 theorem: the non numeric limit string abc
parses to NaN and the endpoint returns the whole one element history. -/
theorem history_degenerate_limit_witness :
    parseIntString "abc" = none ∧
    (getHistory [({ timestamp := 7 } : Reading)] 0 none (some "abc")).1.readings =
      historyFiltered [({ timestamp := 7 } : Reading)] 0 none := by
  refine ⟨by decide, ?_⟩
  exact (history_degenerate_limit [{ timestamp := 7 }] 0 none "abc").2.1 (by decide)

/-- C10 counterexample: on a store of two readings the limit string -1 is
numeric and does not parse to 0, yet the endpoint returns one reading, a
count that exceeds the requested limit, so the cases in which the count
can exceed the limit are not exactly limit 0 and non numeric limits. -/
theorem history_negative_limit_counterexample :
    parseIntString "-1" = some (-1) ∧
    (getHistory [{ timestamp := 1 }, { timestamp := 2 }] 0 none (some "-1")).1.readings =
      [{ timestamp := 2 }] ∧
    (-1 : ℤ) <
      ((getHistory [{ timestamp := 1 }, { timestamp := 2 }] 0 none (some "-1")).1.count : ℤ) := by
  refine ⟨by decide, by decide, by decide⟩
